import Mathlib

/-!
Shallow embedding of the supply-chain traceability service (src/src/index.ts).

The service keeps food-product records in a keyed durable map
(StableBTreeMap) and exposes REST handlers: create, list (paginated), get,
update (with an optimistic-locking version check), delete, transfer and
inspect.  We embed each handler as a pure Lean function from the request
data and the current store to the HTTP-level result and the next store.

Modelling conventions:
- JS Date values are modelled as Nat timestamps; getCurrentDate() becomes an
  explicit `now : Nat` argument to each handler.
- Request-body fields are `Option`-typed: `none` is an absent field.  The JS
  truthiness tests (`!name`) treat both an absent field and an empty string
  as missing, captured by `strTruthy`.
- uuidv4() becomes an explicit generated-id argument.
- `res.status(c).json(x)` / `res.json(x)` become the `ApiResult` type; a
  bare `res.json` is HTTP 200.
- The object spread `{...product, ...req.body, ...}` in the update handler
  copies every field present in the request body over the stored record, so
  `UpdateBody` carries an optional override for every FoodProduct field,
  exactly as a JSON body can.
- `JSON.stringify(req.body)` inside the update audit line is rendered with
  the derived `Repr` instance (a deterministic serialization of the body).
-/

structure Inspection where
  id : String
  inspector : String
  timestamp : Nat
  result : String
  remarks : Option String
  inspectionType : Option String
  batchInfo : Option String
deriving Repr, DecidableEq

structure FoodProduct where
  id : String
  name : String
  origin : String
  currentLocation : String
  owner : String
  status : String
  history : List String
  createdAt : Nat
  updatedAt : Option Nat
  expirationDate : Nat
  inspections : List Inspection
  version : Nat
deriving Repr, DecidableEq

/-- HTTP-level outcome of a handler: 200 with one product, 200 with a list
of products, or an error status with a message. -/
inductive ApiResult where
  | ok (p : FoodProduct)
  | okList (ps : List FoodProduct)
  | err (code : Nat) (msg : String)
deriving Repr, DecidableEq

def ApiResult.statusCode : ApiResult → Nat
  | .ok _ => 200
  | .okList _ => 200
  | .err c _ => c

/-- The product carried by a 200 single-product response, if any. -/
def resultProduct : ApiResult → Option FoodProduct
  | .ok p => some p
  | _ => none

/-- The page carried by a 200 list response (empty otherwise). -/
def resultItems : ApiResult → List FoodProduct
  | .okList ps => ps
  | _ => []

/-- The StableBTreeMap, as an association list keyed by product id. -/
abbrev Store := List (String × FoodProduct)

def storeGet (pid : String) : Store → Option FoodProduct
  | [] => none
  | (k, v) :: rest => if k = pid then some v else storeGet pid rest

def storeInsert (pid : String) (p : FoodProduct) : Store → Store
  | [] => [(pid, p)]
  | (k, v) :: rest =>
      if k = pid then (pid, p) :: rest else (k, v) :: storeInsert pid p rest

def storeRemove (pid : String) (s : Store) : Store :=
  s.filter (fun kv => kv.1 != pid)

def storeValues (s : Store) : List FoodProduct := s.map (·.2)

/-- JS truthiness of an optional string field: `!x` holds when the field is
absent or the empty string. -/
def strTruthy : Option String → Bool
  | none => false
  | some s => s != ""

/-- JS `Array.prototype.slice(start, end)` for in-range non-negative
arguments, as used by the list handler. -/
def jsSlice (l : List FoodProduct) (start stop : Nat) : List FoodProduct :=
  (l.drop start).take (stop - start)

/-- Body of POST /products. -/
structure CreateBody where
  name : Option String
  origin : Option String
  owner : Option String
  expirationDate : Option Nat
deriving Repr, DecidableEq

def createValid (b : CreateBody) : Bool :=
  strTruthy b.name && strTruthy b.origin && strTruthy b.owner
    && b.expirationDate.isSome

/-- POST /products (index.ts lines 89-116): validate the four required
fields, build the product with version 1, a one-entry history and no
inspections, insert it under the generated id, and return it. -/
def createProduct (genId : String) (now : Nat) (b : CreateBody) (s : Store) :
    ApiResult × Store :=
  if !(createValid b) then
    (.err 400 "Name, origin, owner, and expiration date are required fields", s)
  else
    let o := b.origin.getD ""
    let w := b.owner.getD ""
    let p : FoodProduct :=
      { id := genId
        name := b.name.getD ""
        origin := o
        currentLocation := o
        owner := w
        status := "Created"
        history := [s!"Product created at {o} by {w}"]
        createdAt := now
        updatedAt := none
        expirationDate := b.expirationDate.getD 0
        inspections := []
        version := 1 }
    (.ok p, storeInsert genId p s)

/-- GET /products (index.ts lines 119-125): page and limit default to 1 and
10; the page is values().slice((page-1)*limit, page*limit). -/
def listProducts (page limit : Option Nat) (s : Store) : ApiResult :=
  let p := page.getD 1
  let l := limit.getD 10
  .okList (jsSlice (storeValues s) ((p - 1) * l) (p * l))

/-- GET /products/:id (index.ts lines 128-136): 404 when absent. -/
def getProduct (pid : String) (s : Store) : ApiResult :=
  match storeGet pid s with
  | none => .err 404 s!"Product with ID={pid} not found"
  | some p => .ok p

/-- Body of PUT /products/:id.  The handler destructures name, status,
expirationDate and version, but then spreads the whole body over the stored
record, so any FoodProduct field a JSON body can carry is significant. -/
structure UpdateBody where
  id : Option String
  name : Option String
  origin : Option String
  currentLocation : Option String
  owner : Option String
  status : Option String
  history : Option (List String)
  createdAt : Option Nat
  updatedAt : Option (Option Nat)
  expirationDate : Option Nat
  inspections : Option (List Inspection)
  version : Option Nat
deriving Repr, DecidableEq

/-- The update body with every field absent. -/
def emptyUpdateBody : UpdateBody :=
  { id := none, name := none, origin := none, currentLocation := none
    owner := none, status := none, history := none, createdAt := none
    updatedAt := none, expirationDate := none, inspections := none
    version := none }

/-- The `{...product, ...req.body}` object spread: each field present in the
body overrides the stored record field. -/
def spreadBody (p : FoodProduct) (b : UpdateBody) : FoodProduct :=
  { id := b.id.getD p.id
    name := b.name.getD p.name
    origin := b.origin.getD p.origin
    currentLocation := b.currentLocation.getD p.currentLocation
    owner := b.owner.getD p.owner
    status := b.status.getD p.status
    history := b.history.getD p.history
    createdAt := b.createdAt.getD p.createdAt
    updatedAt := b.updatedAt.getD p.updatedAt
    expirationDate := b.expirationDate.getD p.expirationDate
    inspections := b.inspections.getD p.inspections
    version := b.version.getD p.version }

/-- Validation of PUT /products/:id: at least one of name, status,
expirationDate must be (truthily) present. -/
def updateFieldsGiven (b : UpdateBody) : Bool :=
  strTruthy b.name || strTruthy b.status || b.expirationDate.isSome

/-- PUT /products/:id (index.ts lines 139-171).  Order as in the source:
field validation, then existence (status 400 on a missing id), then the
optimistic-locking comparison `product.version !== version` (strict
inequality against the body field, which is undefined when absent), then
the spread-based merge with updatedAt set to now and version incremented,
the re-parse of expirationDate when supplied, the history push, and the
insert under the (pre-spread) stored record id. -/
def updateProduct (now : Nat) (pid : String) (b : UpdateBody) (s : Store) :
    ApiResult × Store :=
  if !(updateFieldsGiven b) then
    (.err 400 "At least one field (name, status, or expiration date) must be provided", s)
  else
    match storeGet pid s with
    | none => (.err 400 s!"Product with ID={pid} not found", s)
    | some p =>
        if b.version ≠ some p.version then
          (.err 409 "Version conflict detected. Please refresh and try again.", s)
        else
          let u0 := spreadBody p b
          let u1 := { u0 with updatedAt := some now, version := p.version + 1 }
          let u2 :=
            if b.expirationDate.isSome then
              { u1 with expirationDate := b.expirationDate.getD 0 }
            else u1
          let u3 := { u2 with
            history := u2.history ++ ["Product updated: " ++ toString (repr b)] }
          (.ok u3, storeInsert p.id u3 s)

/-- DELETE /products/:id (index.ts lines 174-182): remove and return the
prior value, or a 400 error when absent. -/
def deleteProduct (pid : String) (s : Store) : ApiResult × Store :=
  match storeGet pid s with
  | none => (.err 400 s!"Product with ID={pid} not found", s)
  | some p => (.ok p, storeRemove pid s)

/-- Body of POST /products/:id/transfer.  The handler destructures only
newOwner and newLocation; a version field a caller may send is never read,
which we record with an ignored `version` component. -/
structure TransferBody where
  newOwner : Option String
  newLocation : Option String
  version : Option Nat
deriving Repr, DecidableEq

def transferValid (b : TransferBody) : Bool :=
  strTruthy b.newOwner && strTruthy b.newLocation

/-- POST /products/:id/transfer (index.ts lines 185-212): validation, then
existence (status 400), then unconditional write: owner and location
replaced, updatedAt set, version incremented, one history entry appended.
No version comparison occurs. -/
def transferProduct (now : Nat) (pid : String) (b : TransferBody) (s : Store) :
    ApiResult × Store :=
  if !(transferValid b) then
    (.err 400 "New owner and new location are required fields", s)
  else
    match storeGet pid s with
    | none => (.err 400 s!"Product with ID={pid} not found", s)
    | some p =>
        let o := b.newOwner.getD ""
        let l := b.newLocation.getD ""
        let u := { p with
          owner := o
          currentLocation := l
          updatedAt := some now
          version := p.version + 1
          history := p.history ++
            [s!"Ownership transferred to {o} and moved to {l}"] }
        (.ok u, storeInsert p.id u s)

/-- Body of POST /products/:id/inspect; as with transfer, a version field a
caller may send is never read by the handler. -/
structure InspectBody where
  inspector : Option String
  result : Option String
  remarks : Option String
  inspectionType : Option String
  batchInfo : Option String
  version : Option Nat
deriving Repr, DecidableEq

def inspectValid (b : InspectBody) : Bool :=
  strTruthy b.inspector && strTruthy b.result

/-- POST /products/:id/inspect (index.ts lines 215-247): validation, then
existence (status 400), then unconditional write: one Inspection appended,
one history entry appended, version incremented.  No version comparison
occurs and updatedAt is left untouched. -/
def inspectProduct (genId : String) (now : Nat) (pid : String)
    (b : InspectBody) (s : Store) : ApiResult × Store :=
  if !(inspectValid b) then
    (.err 400 "Inspector and result are required fields", s)
  else
    match storeGet pid s with
    | none => (.err 400 s!"Product with ID={pid} not found", s)
    | some p =>
        let i := b.inspector.getD ""
        let r := b.result.getD ""
        let insp : Inspection :=
          { id := genId
            inspector := i
            timestamp := now
            result := r
            remarks := b.remarks
            inspectionType := b.inspectionType
            batchInfo := b.batchInfo }
        let u := { p with
          inspections := p.inspections ++ [insp]
          history := p.history ++ [s!"Inspection conducted by {i}: {r}"]
          version := p.version + 1 }
        (.ok u, storeInsert p.id u s)

theorem storeGet_storeInsert_self (pid : String) (p : FoodProduct) (s : Store) :
    storeGet pid (storeInsert pid p s) = some p := by
  induction s with
  | nil => simp [storeInsert, storeGet]
  | cons kv rest ih =>
      obtain ⟨k, v⟩ := kv
      by_cases h : k = pid
      · simp [storeInsert, storeGet, h]
      · simp [storeInsert, storeGet, h, ih]

/-- A concrete created record, as POST /products builds it. -/
def sampleProduct : FoodProduct :=
  { id := "a", name := "Apples", origin := "Farm A", currentLocation := "Farm A"
    owner := "Farm A", status := "Created"
    history := ["Product created at Farm A by Farm A"]
    createdAt := 10, updatedAt := none, expirationDate := 100
    inspections := [], version := 1 }

def store1 : Store := [("a", sampleProduct)]

def sampleCreateBody : CreateBody :=
  { name := some "Apples", origin := some "Farm A", owner := some "Farm A"
    expirationDate := some 100 }

/-- An update body with no version field: the caller opts out of optimistic
locking. -/
def noVersionBody : UpdateBody := { emptyUpdateBody with name := some "Gala Apples" }

/-- C1 (amended): an Update command carrying no expected version is never
admitted: the stored version, a number, is never strictly-equal to an
absent body field, so the handler rejects the command with 409
VersionConflict and leaves the store unchanged.  Optimistic locking is
mandatory for Update, not an opt-in mode. -/
theorem update_without_version_conflicts (now : Nat) (pid : String)
    (b : UpdateBody) (s : Store) (p : FoodProduct)
    (hp : storeGet pid s = some p)
    (hf : updateFieldsGiven b = true)
    (hv : b.version = none) :
    updateProduct now pid b s =
      (.err 409 "Version conflict detected. Please refresh and try again.", s) := by
  simp [updateProduct, hp, hf, hv]

/-- C1 counterexample: on a record at version 1, an update whose body has a
name but no version field is rejected with 409 and writes nothing, so the
no-version mutation is not admitted. -/
theorem update_without_version_not_admitted_cex :
    (updateProduct 11 "a" noVersionBody store1).1.statusCode = 409
    ∧ (updateProduct 11 "a" noVersionBody store1).2 = store1
    ∧ (updateProduct 11 "a" noVersionBody store1).1.statusCode ≠ 200 := by
  decide

theorem update_without_version_conflicts_witness :
    updateProduct 11 "a" noVersionBody store1 =
      (.err 409 "Version conflict detected. Please refresh and try again.", store1) :=
  update_without_version_conflicts 11 "a" noVersionBody store1 sampleProduct
    (by decide) (by decide) rfl

/-- C2: an Update supplying an expected version different from the stored
version fails with 409 VersionConflict and leaves the store, hence the
stored record with all its fields, version and history, unchanged. -/
theorem update_version_mismatch_rejected (now : Nat) (pid : String)
    (b : UpdateBody) (s : Store) (p : FoodProduct) (w : Nat)
    (hp : storeGet pid s = some p)
    (hf : updateFieldsGiven b = true)
    (hb : b.version = some w)
    (hw : w ≠ p.version) :
    updateProduct now pid b s =
      (.err 409 "Version conflict detected. Please refresh and try again.", s) := by
  simp [updateProduct, hp, hf, hb, hw]

def staleVersionBody : UpdateBody :=
  { emptyUpdateBody with name := some "Gala Apples", version := some 5 }

theorem update_version_mismatch_rejected_witness :
    updateProduct 11 "a" staleVersionBody store1 =
      (.err 409 "Version conflict detected. Please refresh and try again.", store1) :=
  update_version_mismatch_rejected 11 "a" staleVersionBody store1 sampleProduct 5
    (by decide) (by decide) rfl (by decide)

/-- C3 (amended): only Update applies the version-guard policy.  Transfer
and Inspect never compare a caller-supplied version against the stored one:
with a valid body and an existing id they always write, incrementing the
stored version by 1, whatever version field the request body carries, while
Update with a mismatched expected version is rejected with 409. -/
theorem version_guard_only_on_update (now : Nat) (gid pid : String)
    (ub : UpdateBody) (tb : TransferBody) (ib : InspectBody)
    (s : Store) (p : FoodProduct) (w : Nat)
    (hp : storeGet pid s = some p)
    (hu : updateFieldsGiven ub = true)
    (huv : ub.version = some w)
    (hw : w ≠ p.version)
    (ht : transferValid tb = true)
    (hi : inspectValid ib = true) :
    (updateProduct now pid ub s).1.statusCode = 409
    ∧ (resultProduct (transferProduct now pid tb s).1).map FoodProduct.version
        = some (p.version + 1)
    ∧ (resultProduct (inspectProduct gid now pid ib s).1).map FoodProduct.version
        = some (p.version + 1) := by
  refine ⟨?_, ?_, ?_⟩
  · simp [updateProduct, hp, hu, huv, hw, ApiResult.statusCode]
  · simp [transferProduct, hp, ht, resultProduct]
  · simp [inspectProduct, hp, hi, resultProduct]

/-- A transfer body carrying a version field (999) that does not match the
stored version (1); the handler never reads it. -/
def transferBody999 : TransferBody :=
  { newOwner := some "Distributor B", newLocation := some "Warehouse 1"
    version := some 999 }

/-- C3 counterexample: a Transfer on a record at version 1 whose body
carries expected version 999 succeeds and writes (version becomes 2), so
the mismatching caller-supplied version does not reject the write. -/
theorem transfer_ignores_supplied_version_cex :
    (transferProduct 11 "a" transferBody999 store1).1.statusCode = 200
    ∧ (resultProduct (transferProduct 11 "a" transferBody999 store1).1).map
        FoodProduct.version = some 2
    ∧ transferBody999.version ≠ some sampleProduct.version := by
  decide

theorem version_guard_only_on_update_witness :
    (updateProduct 11 "a" staleVersionBody store1).1.statusCode = 409
    ∧ (resultProduct (transferProduct 11 "a" transferBody999 store1).1).map
        FoodProduct.version = some (sampleProduct.version + 1) := by
  have h := version_guard_only_on_update 11 "i1" "a" staleVersionBody
    transferBody999
    { inspector := some "Insp1", result := some "Passed", remarks := none
      inspectionType := none, batchInfo := none, version := none }
    store1 sampleProduct 5 (by decide) (by decide) rfl (by decide) (by decide)
    (by decide)
  exact ⟨h.1, h.2.1⟩

/-- An accepted update body (version matches a version-1 record) whose JSON
body also carries a history field, which the object spread copies over the
stored history before the audit push. -/
def historyWipeBody1 : UpdateBody :=
  { emptyUpdateBody with
    name := some "Fresh Apples", version := some 1, history := some [] }

/-- C4 (code bug, evaluation): create a record (version 1, one history
entry), then run one accepted Update whose body also carries an empty
history array.  The version becomes 1 + 1 = 2 as the claim states, but
history.length drops to 1, below the claimed minimum 1 + N = 2: the spread
in the update handler lets the request body replace the audit trail. -/
theorem accepted_update_can_break_history_bound_demo :
    (storeGet "a"
        (updateProduct 11 "a" historyWipeBody1
          (createProduct "a" 10 sampleCreateBody []).2).2).map
      FoodProduct.version = some 2
    ∧ (storeGet "a"
        (updateProduct 11 "a" historyWipeBody1
          (createProduct "a" 10 sampleCreateBody []).2).2).map
      (fun p => p.history.length) = some 1 := by
  constructor <;> rfl

def transferBody1 : TransferBody :=
  { newOwner := some "Distributor B", newLocation := some "Warehouse 1"
    version := none }

/-- Create then transfer: a record at version 2 with two history entries. -/
def storeAfterTransfer : Store :=
  (transferProduct 11 "a" transferBody1 (createProduct "a" 10 sampleCreateBody []).2).2

def historyWipeBody2 : UpdateBody :=
  { emptyUpdateBody with
    name := some "Fresh Apples", version := some 2, history := some [] }

/-- C5 (code bug, evaluation): the stored record has two history entries;
one accepted Update carrying history = [] in its body leaves the stored
history with a single entry, so the history shrank and its existing entries
were removed. -/
theorem accepted_update_shrinks_history_demo :
    (storeGet "a" storeAfterTransfer).map (fun p => p.history.length) = some 2
    ∧ (storeGet "a" (updateProduct 12 "a" historyWipeBody2 storeAfterTransfer).2).map
        (fun p => p.history.length) = some 1 := by
  constructor <;> rfl

/-- An accepted update body that also carries id and createdAt overrides. -/
def fieldOverrideBody : UpdateBody :=
  { emptyUpdateBody with
    name := some "Fresh Apples", version := some 1, id := some "evil"
    createdAt := some 999 }

/-- C8 (code bug, evaluation): an accepted Update whose body carries id and
createdAt rewrites both stored fields (the record stays filed under its old
key, but its id field becomes "evil" and its createdAt becomes 999). -/
theorem update_overwrites_id_createdAt_demo :
    (storeGet "a" (updateProduct 11 "a" fieldOverrideBody store1).2).map
      FoodProduct.id = some "evil"
    ∧ (storeGet "a" (updateProduct 11 "a" fieldOverrideBody store1).2).map
      FoodProduct.createdAt = some 999
    ∧ sampleProduct.id = "a" ∧ sampleProduct.createdAt = 10 := by
  refine ⟨?_, ?_, rfl, rfl⟩ <;> rfl

/-- C6 (amended): on an identifier not present in the store, each of the
five id-addressed operations reports the record as not found and leaves the
store completely unchanged; at the REST surface Get answers HTTP 404 while
Update, Delete, Transfer and Inspect answer HTTP 400 with the same
not-found message. -/
theorem unknown_id_notfound_store_unchanged (now : Nat) (gid pid : String)
    (s : Store) (ub : UpdateBody) (tb : TransferBody) (ib : InspectBody)
    (h : storeGet pid s = none)
    (hu : updateFieldsGiven ub = true)
    (ht : transferValid tb = true)
    (hi : inspectValid ib = true) :
    getProduct pid s = .err 404 s!"Product with ID={pid} not found"
    ∧ updateProduct now pid ub s = (.err 400 s!"Product with ID={pid} not found", s)
    ∧ deleteProduct pid s = (.err 400 s!"Product with ID={pid} not found", s)
    ∧ transferProduct now pid tb s = (.err 400 s!"Product with ID={pid} not found", s)
    ∧ inspectProduct gid now pid ib s = (.err 400 s!"Product with ID={pid} not found", s) := by
  refine ⟨?_, ?_, ?_, ?_, ?_⟩
  · simp [getProduct, h]
  · simp [updateProduct, h, hu]
  · simp [deleteProduct, h]
  · simp [transferProduct, h, ht]
  · simp [inspectProduct, h, hi]

/-- C6 counterexample: Delete of an absent id answers HTTP 400, not the 404
the claim states for the REST surface. -/
theorem delete_unknown_id_status_cex :
    (deleteProduct "b" store1).1.statusCode = 400
    ∧ (deleteProduct "b" store1).1.statusCode ≠ 404 := by
  decide

def inspectBody1 : InspectBody :=
  { inspector := some "Insp1", result := some "Passed", remarks := none
    inspectionType := none, batchInfo := none, version := none }

theorem unknown_id_notfound_store_unchanged_witness :
    getProduct "b" store1 = .err 404 "Product with ID=b not found"
    ∧ deleteProduct "b" store1 = (.err 400 "Product with ID=b not found", store1) :=
  have h := unknown_id_notfound_store_unchanged 11 "i1" "b" store1
    staleVersionBody transferBody1 inspectBody1
    (by decide) (by decide) (by decide) (by decide)
  ⟨h.1, h.2.2.1⟩

/-- C7 (amended): updatedAt is null on creation and stays null until the
first accepted Update or Transfer; each accepted Update and each accepted
Transfer sets it to the current time, but an accepted Inspect leaves it
exactly as it was (the inspect handler never touches updatedAt). -/
theorem updatedAt_set_only_by_update_transfer (now : Nat) (gid pid : String)
    (cb : CreateBody) (ub : UpdateBody) (tb : TransferBody) (ib : InspectBody)
    (s : Store) (p : FoodProduct)
    (hc : createValid cb = true)
    (hp : storeGet pid s = some p)
    (hu : updateFieldsGiven ub = true)
    (huv : ub.version = some p.version)
    (ht : transferValid tb = true)
    (hi : inspectValid ib = true) :
    (resultProduct (createProduct gid now cb s).1).map FoodProduct.updatedAt
        = some none
    ∧ (resultProduct (updateProduct now pid ub s).1).map FoodProduct.updatedAt
        = some (some now)
    ∧ (resultProduct (transferProduct now pid tb s).1).map FoodProduct.updatedAt
        = some (some now)
    ∧ (resultProduct (inspectProduct gid now pid ib s).1).map FoodProduct.updatedAt
        = some p.updatedAt := by
  refine ⟨?_, ?_, ?_, ?_⟩
  · simp [createProduct, hc, resultProduct]
  · by_cases he : ub.expirationDate.isSome <;>
      simp [updateProduct, hp, hu, huv, he, resultProduct]
  · simp [transferProduct, hp, ht, resultProduct]
  · simp [inspectProduct, hp, hi, resultProduct]

/-- C7 counterexample: an accepted Inspect on a freshly created record (its
version does increment to 2) leaves updatedAt null, so not every accepted
mutation sets updatedAt. -/
theorem inspect_leaves_updatedAt_null_cex :
    (resultProduct (inspectProduct "i1" 42 "a" inspectBody1 store1).1).map
        FoodProduct.updatedAt = some none
    ∧ (resultProduct (inspectProduct "i1" 42 "a" inspectBody1 store1).1).map
        FoodProduct.version = some 2 := by
  decide

/-- An update body that the version guard accepts against a version-1
record. -/
def acceptedUpdateBody : UpdateBody :=
  { emptyUpdateBody with name := some "Gala Apples", version := some 1 }

theorem updatedAt_set_only_by_update_transfer_witness :
    (resultProduct (transferProduct 11 "a" transferBody1 store1).1).map
        FoodProduct.updatedAt = some (some 11)
    ∧ (resultProduct (inspectProduct "i1" 11 "a" inspectBody1 store1).1).map
        FoodProduct.updatedAt = some sampleProduct.updatedAt :=
  have h := updatedAt_set_only_by_update_transfer 11 "i1" "a"
    sampleCreateBody acceptedUpdateBody transferBody1 inspectBody1
    store1 sampleProduct (by decide) (by decide) (by decide) rfl (by decide)
    (by decide)
  ⟨h.2.2.1, h.2.2.2⟩

/-- C9: with all four required fields present, Create returns a new product
with status "Created", currentLocation equal to origin, version 1, exactly
one history entry and empty inspections, and Get by the returned id on the
resulting store yields exactly that response; and Create answers 400
ValidationError exactly when a required field is missing (in the JS sense
of the source: the body field is absent or empty). -/
theorem create_roundtrip_and_validation (gid : String) (now : Nat)
    (b : CreateBody) (s : Store) :
    (createValid b = true →
      (resultProduct (createProduct gid now b s).1).map FoodProduct.status
          = some "Created"
      ∧ (resultProduct (createProduct gid now b s).1).map FoodProduct.currentLocation
          = some (b.origin.getD "")
      ∧ (resultProduct (createProduct gid now b s).1).map FoodProduct.origin
          = some (b.origin.getD "")
      ∧ (resultProduct (createProduct gid now b s).1).map FoodProduct.version
          = some 1
      ∧ (resultProduct (createProduct gid now b s).1).map (fun p => p.history.length)
          = some 1
      ∧ (resultProduct (createProduct gid now b s).1).map FoodProduct.inspections
          = some []
      ∧ getProduct gid (createProduct gid now b s).2 = (createProduct gid now b s).1)
    ∧ ((createProduct gid now b s).1.statusCode = 400 ↔ createValid b = false) := by
  by_cases hv : createValid b
  · refine ⟨fun _ => ?_, ?_⟩
    · simp [createProduct, hv, resultProduct, getProduct, storeGet_storeInsert_self]
    · simp [createProduct, hv, ApiResult.statusCode]
  · refine ⟨fun h => absurd h hv, ?_⟩
    simp only [Bool.not_eq_true] at hv
    simp [createProduct, hv, ApiResult.statusCode]

theorem create_roundtrip_and_validation_witness :
    (resultProduct (createProduct "a" 10 sampleCreateBody []).1).map
        FoodProduct.version = some 1
    ∧ getProduct "a" (createProduct "a" 10 sampleCreateBody []).2
        = (createProduct "a" 10 sampleCreateBody []).1
    ∧ (createProduct "a" 10 { sampleCreateBody with name := none } []).1.statusCode
        = 400 := by
  have h1 := (create_roundtrip_and_validation "a" 10 sampleCreateBody []).1 (by decide)
  have h2 := (create_roundtrip_and_validation "a" 10
    { sampleCreateBody with name := none } []).2.mpr (by decide)
  exact ⟨h1.2.2.2.1, h1.2.2.2.2.2.2, h2⟩

/-- C10: List defaults to page 1 and limit 10; on a store holding 25
records with limit 10, page 1 has 10 items, page 3 has 5, page 4 has 0, and
pages 1 through 3 concatenated in order are exactly the stored values. -/
theorem pagination_defaults_and_pages (s : Store)
    (h : (storeValues s).length = 25) :
    listProducts none none s = listProducts (some 1) (some 10) s
    ∧ (resultItems (listProducts (some 1) (some 10) s)).length = 10
    ∧ (resultItems (listProducts (some 3) (some 10) s)).length = 5
    ∧ (resultItems (listProducts (some 4) (some 10) s)).length = 0
    ∧ resultItems (listProducts (some 1) (some 10) s)
        ++ resultItems (listProducts (some 2) (some 10) s)
        ++ resultItems (listProducts (some 3) (some 10) s)
      = storeValues s := by
  refine ⟨rfl, ?_, ?_, ?_, ?_⟩
  · simp [listProducts, jsSlice, resultItems, h]
  · simp [listProducts, jsSlice, resultItems, h]
  · simp [listProducts, jsSlice, resultItems, h]
  · show jsSlice (storeValues s) 0 10 ++ jsSlice (storeValues s) 10 20
        ++ jsSlice (storeValues s) 20 30 = storeValues s
    have h20 : ((storeValues s).drop 20).length ≤ 10 := by
      simp [List.length_drop, h]
    have e3 : jsSlice (storeValues s) 20 30 = (storeValues s).drop 20 := by
      simpa [jsSlice] using List.take_of_length_le h20
    have e2 : jsSlice (storeValues s) 10 20 = ((storeValues s).drop 10).take 10 := by
      simp [jsSlice]
    have e1 : jsSlice (storeValues s) 0 10 = (storeValues s).take 10 := by
      simp [jsSlice]
    rw [e1, e2, e3, List.append_assoc]
    have hd : (storeValues s).drop 20 = ((storeValues s).drop 10).drop 10 := by
      rw [List.drop_drop]
    rw [hd, List.take_append_drop, List.take_append_drop]

/-- A concrete store with 25 records. -/
def sampleStore25 : Store :=
  (List.range 25).map (fun i => (toString i, { sampleProduct with id := toString i }))

theorem pagination_defaults_and_pages_witness :
    (storeValues sampleStore25).length = 25
    ∧ (resultItems (listProducts (some 1) (some 10) sampleStore25)).length = 10
    ∧ (resultItems (listProducts (some 3) (some 10) sampleStore25)).length = 5
    ∧ (resultItems (listProducts (some 4) (some 10) sampleStore25)).length = 0 :=
  have h := pagination_defaults_and_pages sampleStore25 (by rfl)
  ⟨by rfl, h.2.1, h.2.2.1, h.2.2.2.1⟩
